import Mathlib

/-!
Verification of `ansible/scripts/disk_monitoring_lambda.py`
(`DiskMonitoringCollector`), a single-pass batch job that collects disk
usage datapoints from a list of AWS accounts, classifies each datapoint
against three thresholds, fans alerts out to notification channels, and
returns an aggregate summary.

The Python code is shallowly embedded: CloudWatch datapoints become a
`Datapoint` structure, the environment-derived `CONFIG` dict becomes
`Config`, and the outcomes of the external calls (`sts.assume_role`,
`get_metric_statistics`, the three notification sends) are supplied as
explicit oracles (`AccountEnv`, `ChannelEnv`), so that the control flow of
the Python code — including which exception handlers catch what — is
modelled exactly.
-/

/-- One entry of a CloudWatch datapoint's `Dimensions` list. -/
structure Dimension where
  name : String
  value : String
deriving DecidableEq, Repr

/-- A CloudWatch datapoint as consumed by `analyze_metrics` and
`collect_metrics_from_account`: the `Average` field may be absent
(`datapoint.get('Average', 0)`), the timestamp is kept as its already
ISO-formatted string, and the dimension list is arbitrary. -/
structure Datapoint where
  average : Option ℚ
  timestamp : String
  dimensions : List Dimension
deriving DecidableEq, Repr

/-- The parts of the module-level `CONFIG` dict that the verified code
paths read. Thresholds come from `int(os.environ.get(...))`, hence
integers; the three channel destinations are `None` when the
corresponding environment variable is unset. -/
structure Config where
  alert_threshold_warning : ℤ
  alert_threshold_critical : ℤ
  alert_threshold_emergency : ℤ
  sns_topic_arn : Option String
  slack_webhook_url : Option String
  pagerduty_api_key : Option String
  cross_account_role_name : String
deriving DecidableEq, Repr

/-- `CONFIG` with every environment variable unset: thresholds default to
80/90/95 and no notification channel is configured. -/
def default_config : Config :=
  { alert_threshold_warning := 80
    alert_threshold_critical := 90
    alert_threshold_emergency := 95
    sns_topic_arn := none
    slack_webhook_url := none
    pagerduty_api_key := none
    cross_account_role_name := "DiskMonitoringRole" }

/-- Severity level attached to an alert by `analyze_metrics`. -/
inductive AlertLevel
  | WARNING
  | CRITICAL
  | EMERGENCY
deriving DecidableEq, Repr

/-- The alert dict built by `analyze_metrics`. -/
structure Alert where
  account_id : String
  instance_id : String
  alert_level : AlertLevel
  priority : String
  disk_usage : ℚ
  timestamp : String
  threshold : ℤ
deriving DecidableEq, Repr

/-- The per-account record built by `collect_metrics_from_account`
(`error` is present exactly on the exception path). -/
structure AccountData where
  account_id : String
  timestamp : String
  error : Option String
  metrics : List Datapoint
  instance_count : ℕ
deriving DecidableEq, Repr

/-- `next((dim['Value'] for dim in datapoint['Dimensions'] if
dim['Name'] == 'InstanceId'), 'Unknown')`: the value of the first
dimension named `InstanceId`, defaulting to `"Unknown"`. -/
def datapointInstanceId (dp : Datapoint) : String :=
  ((dp.dimensions.find? (fun dim => dim.name = "InstanceId")).map Dimension.value).getD
    "Unknown"

/-- The body of the `for datapoint in ...` loop of `analyze_metrics`:
classify one datapoint against the three thresholds (`>=` comparisons,
emergency first) and build the alert dict, or skip (`continue`). -/
def analyzeDatapoint (cfg : Config) (account_id : String) (dp : Datapoint) :
    Option Alert :=
  let avg_usage : ℚ := dp.average.getD 0
  let instance_id := datapointInstanceId dp
  if avg_usage ≥ (cfg.alert_threshold_emergency : ℚ) then
    some { account_id := account_id, instance_id := instance_id
           alert_level := .EMERGENCY, priority := "high"
           disk_usage := avg_usage, timestamp := dp.timestamp
           threshold := cfg.alert_threshold_emergency }
  else if avg_usage ≥ (cfg.alert_threshold_critical : ℚ) then
    some { account_id := account_id, instance_id := instance_id
           alert_level := .CRITICAL, priority := "high"
           disk_usage := avg_usage, timestamp := dp.timestamp
           threshold := cfg.alert_threshold_critical }
  else if avg_usage ≥ (cfg.alert_threshold_warning : ℚ) then
    some { account_id := account_id, instance_id := instance_id
           alert_level := .WARNING, priority := "medium"
           disk_usage := avg_usage, timestamp := dp.timestamp
           threshold := cfg.alert_threshold_warning }
  else
    none

/-- `DiskMonitoringCollector.analyze_metrics`: one optional alert per
datapoint of the account record. -/
def analyze_metrics (cfg : Config) (account_data : AccountData) : List Alert :=
  account_data.metrics.filterMap (analyzeDatapoint cfg account_data.account_id)

/-- `[dp['Dimensions'][0]['Value'] for dp in response['Datapoints']]`
inside `set(...)`: the first dimension's value of every datapoint;
`none` models the `IndexError` raised when some datapoint has an empty
dimension list (which the surrounding `try` then catches). -/
def firstDimensionValues : List Datapoint → Option (List String)
  | [] => some []
  | dp :: rest =>
    match dp.dimensions.head?, firstDimensionValues rest with
    | some dim, some vs => some (dim.value :: vs)
    | _, _ => none

/-- `DiskMonitoringCollector.collect_metrics_from_account`. The outcome
of `get_metric_statistics` is passed in as `response` (`Except.error e`
models the API call raising with message `e`); `now` stands for
`datetime.utcnow().isoformat()`. On success the record carries the raw
datapoints and `len(set(dp['Dimensions'][0]['Value'] for dp in ...))`;
any exception (API failure, or `IndexError` from an empty dimension
list) yields the error record with empty metrics and zero count. -/
def collect_metrics_from_account (account_id : String)
    (response : Except String (List Datapoint)) (now : String) : AccountData :=
  match response with
  | .error e =>
    { account_id := account_id, timestamp := now, error := some e
      metrics := [], instance_count := 0 }
  | .ok datapoints =>
    match firstDimensionValues datapoints with
    | none =>
      { account_id := account_id, timestamp := now
        error := some "list index out of range", metrics := []
        instance_count := 0 }
    | some vals =>
      { account_id := account_id, timestamp := now, error := none
        metrics := datapoints, instance_count := vals.dedup.length }

/-- The notification channels `send_alert` can reach. -/
inductive Channel
  | SNS
  | Slack
  | PagerDuty
deriving DecidableEq, Repr

/-- Oracle for the side effects inside `send_alert`'s `try` block:
whether `format_alert_message` returns normally and whether each
channel's delivery call returns normally (rather than raising). -/
structure ChannelEnv where
  format_ok : Bool
  sns_ok : Bool
  slack_ok : Bool
  pagerduty_ok : Bool
deriving DecidableEq, Repr

/-- `CONFIG['pagerduty_api_key'] and alert['priority'] == 'high'`: the
guard on the PagerDuty branch of `send_alert`. -/
def pagerdutyGate (cfg : Config) (alert : Alert) : Bool :=
  cfg.pagerduty_api_key.isSome && alert.priority == "high"

/-- `DiskMonitoringCollector.send_alert`. One single `try/except` wraps
message formatting and all three channel sends, executed in order SNS,
Slack, PagerDuty, each behind its configuration guard; the first
exception anywhere jumps to the handler, which returns `False`.
Returns the list of channels whose delivery call was reached (attempted,
successfully or not) together with the Boolean result. -/
def send_alert (cfg : Config) (env : ChannelEnv) (alert : Alert) :
    List Channel × Bool :=
  if env.format_ok = false then ([], false)
  else if cfg.sns_topic_arn.isSome && !env.sns_ok then ([Channel.SNS], false)
  else
    let afterSns := if cfg.sns_topic_arn.isSome then [Channel.SNS] else []
    if cfg.slack_webhook_url.isSome && !env.slack_ok then
      (afterSns ++ [Channel.Slack], false)
    else
      let afterSlack :=
        afterSns ++ (if cfg.slack_webhook_url.isSome then [Channel.Slack] else [])
      if pagerdutyGate cfg alert && !env.pagerduty_ok then
        (afterSlack ++ [Channel.PagerDuty], false)
      else
        (afterSlack ++ (if pagerdutyGate cfg alert then [Channel.PagerDuty] else []),
          true)

/-- `DiskMonitoringCollector.get_aws_accounts`: split the
`MONITORED_ACCOUNTS` environment variable on commas, strip each piece,
keep the non-empty ones. Strings are handled as their character lists so
the definition computes by kernel reduction. -/
def get_aws_accounts (raw : String) : List String :=
  (((raw.toList.splitOn ',').map
      (fun cs => ((cs.dropWhile Char.isWhitespace).reverse.dropWhile
          Char.isWhitespace).reverse)).map List.asString).filter (fun s => s ≠ "")

/-- Oracle for the per-account external calls made inside `run`'s loop:
whether `assume_role` returns a session (rather than `None`), and what
the account's `get_metric_statistics` call produces. -/
structure AccountEnv where
  assume_ok : Bool
  response : Except String (List Datapoint)
deriving Repr

/-- `session` is obtained for an account iff it is the central account
(`boto3.Session()`) or `assume_role` succeeded; otherwise the loop does
`continue`. -/
def hasSession (current : String) (envOf : String → AccountEnv)
    (account_id : String) : Bool :=
  account_id == current || (envOf account_id).assume_ok

/-- `self.aggregated_data[account_id] = account_data`: Python dict
assignment — replace in place if the key exists, else append. -/
def dictInsert (d : List (String × AccountData)) (k : String) (v : AccountData) :
    List (String × AccountData) :=
  if d.any (fun p => p.1 = k) then
    d.map (fun p => if p.1 = k then (k, v) else p)
  else d ++ [(k, v)]

/-- The mutable collector state: `self.aggregated_data` (a dict, kept as
an insertion-ordered association list) and `self.alerts`. -/
structure RunState where
  aggregated_data : List (String × AccountData)
  alerts : List Alert
deriving DecidableEq, Repr

/-- One iteration of the `for account_id in accounts` loop in `run`:
skip the account when no session is obtained, otherwise collect its
metrics, store the record in `aggregated_data`, and extend `alerts` with
the analysis result. (`send_alert` is also called per alert but its
return value is ignored and it does not touch the collector state.) -/
def processAccount (cfg : Config) (current : String)
    (envOf : String → AccountEnv) (now : String) (st : RunState)
    (account_id : String) : RunState :=
  if hasSession current envOf account_id then
    let account_data :=
      collect_metrics_from_account account_id (envOf account_id).response now
    let alerts := analyze_metrics cfg account_data
    { aggregated_data := dictInsert st.aggregated_data account_id account_data
      alerts := st.alerts ++ alerts }
  else st

/-- The summary dict returned by `run`. -/
structure RunSummary where
  accounts_monitored : ℕ
  total_instances : ℕ
  total_alerts : ℕ
  timestamp : String
  status : String
deriving DecidableEq, Repr

/-- `DiskMonitoringCollector.run`: enumerate the accounts from the raw
`MONITORED_ACCOUNTS` string, fold the per-account loop over them
starting from empty state, and return the summary (the
`store_aggregated_data` call writes metrics externally and swallows its
own failures, so it does not affect the returned value). The final
collector state is returned alongside the summary. -/
def run (cfg : Config) (current : String) (envOf : String → AccountEnv)
    (now : String) (raw_accounts : String) : RunSummary × RunState :=
  let accounts := get_aws_accounts raw_accounts
  let st := accounts.foldl (processAccount cfg current envOf now) ⟨[], []⟩
  ({ accounts_monitored := st.aggregated_data.length
     total_instances := (st.aggregated_data.map (fun p => p.2.instance_count)).sum
     total_alerts := st.alerts.length
     timestamp := now
     status := "success" }, st)

/-! Concrete instances used by witnesses and counterexamples. -/

/-- Configuration with SNS and Slack set, PagerDuty unset. -/
def cfg_sns_slack : Config :=
  { default_config with
    sns_topic_arn := some "arn:aws:sns:us-east-1:1:disk-alerts"
    slack_webhook_url := some "https://hooks.example/T0/B0/x" }

/-- Configuration with SNS and PagerDuty set, Slack unset. -/
def cfg_sns_pagerduty : Config :=
  { default_config with
    sns_topic_arn := some "arn:aws:sns:us-east-1:1:disk-alerts"
    pagerduty_api_key := some "pd-routing-key" }

/-- Channel side effects where the `sns.publish` call raises and every
other call would succeed. -/
def env_sns_raises : ChannelEnv :=
  { format_ok := true, sns_ok := false, slack_ok := true, pagerduty_ok := true }

/-- Channel side effects where every call succeeds. -/
def env_all_ok : ChannelEnv :=
  { format_ok := true, sns_ok := true, slack_ok := true, pagerduty_ok := true }

/-- A CRITICAL (hence priority `"high"`) alert. -/
def alert_critical : Alert :=
  { account_id := "111", instance_id := "i-1", alert_level := .CRITICAL
    priority := "high", disk_usage := 92, timestamp := "t", threshold := 90 }

/-- A datapoint whose average (85) falls in the warning band. -/
def dp_warning : Datapoint :=
  ⟨some 85, "tw", [⟨"InstanceId", "i-3"⟩]⟩

/-- The alert `analyzeDatapoint` produces for `dp_warning` in account 111. -/
def alert_warning : Alert :=
  { account_id := "111", instance_id := "i-3", alert_level := .WARNING
    priority := "medium", disk_usage := 85, timestamp := "tw", threshold := 80 }

/-- Datapoint whose first dimension is `Filesystem`, instance `i-1`. -/
def dp_fs_first_1 : Datapoint :=
  ⟨some 50, "t1", [⟨"Filesystem", "/"⟩, ⟨"InstanceId", "i-1"⟩]⟩

/-- Datapoint whose first dimension is `Filesystem`, instance `i-2`. -/
def dp_fs_first_2 : Datapoint :=
  ⟨some 50, "t2", [⟨"Filesystem", "/"⟩, ⟨"InstanceId", "i-2"⟩]⟩

/-- Single datapoint whose first dimension is the `InstanceId` one. -/
def dp_id_first : Datapoint :=
  ⟨some 50, "t1", [⟨"InstanceId", "i-1"⟩, ⟨"Filesystem", "/"⟩]⟩

/-- Account oracle where every `assume_role` call fails (returns `None`). -/
def env_assume_denied : String → AccountEnv :=
  fun _ => ⟨false, Except.ok []⟩

/-- Account oracle where sessions are obtained but every
`get_metric_statistics` call raises `AccessDenied`. -/
def env_query_denied : String → AccountEnv :=
  fun _ => ⟨true, Except.error "AccessDenied"⟩

/-! Helper lemmas shared by the claim theorems. -/

/-- In the attempted-channel list produced by `send_alert`, PagerDuty
appears exactly when its guard holds and neither message formatting nor
an earlier configured channel raised first. -/
lemma send_alert_pagerduty_contains (cfg : Config) (env : ChannelEnv)
    (alert : Alert) :
    (send_alert cfg env alert).1.contains Channel.PagerDuty =
      (pagerdutyGate cfg alert && env.format_ok
        && (!cfg.sns_topic_arn.isSome || env.sns_ok)
        && (!cfg.slack_webhook_url.isSome || env.slack_ok)) := by
  unfold send_alert
  cases hf : env.format_ok <;>
    cases hs : cfg.sns_topic_arn.isSome <;>
      cases ho : env.sns_ok <;>
        cases hsl : cfg.slack_webhook_url.isSome <;>
          cases hso : env.slack_ok <;>
            cases hp : pagerdutyGate cfg alert <;>
              cases hpo : env.pagerduty_ok <;>
                simp_all

/-- An alert built by the analyzer loop body with level WARNING carries
priority `"medium"`. -/
lemma analyzeDatapoint_warning_priority (cfg : Config) (acc : String)
    (dp : Datapoint) (alert : Alert)
    (hdp : analyzeDatapoint cfg acc dp = some alert)
    (hlevel : alert.alert_level = AlertLevel.WARNING) :
    alert.priority = "medium" := by
  simp only [analyzeDatapoint] at hdp
  split_ifs at hdp <;> (injection hdp with h; subst h; simp_all)

/-- When every datapoint's first dimension is the `InstanceId` one, the
first-dimension values coincide with the extracted instance ids. -/
lemma firstDimensionValues_eq_map (dps : List Datapoint) (vals : List String)
    (hvals : firstDimensionValues dps = some vals)
    (hnames : ∀ dp ∈ dps, dp.dimensions.head?.map Dimension.name = some "InstanceId") :
    vals = dps.map datapointInstanceId := by
  induction dps generalizing vals with
  | nil =>
    unfold firstDimensionValues at hvals
    simp_all
  | cons dp rest ih =>
    unfold firstDimensionValues at hvals
    cases hh : dp.dimensions.head? with
    | none => rw [hh] at hvals; simp at hvals
    | some dim =>
      rw [hh] at hvals
      cases hr : firstDimensionValues rest with
      | none => rw [hr] at hvals; simp at hvals
      | some vs =>
        rw [hr] at hvals
        simp only [Option.some.injEq] at hvals
        have hname : dim.name = "InstanceId" := by
          have hmem := hnames dp (by simp)
          rw [hh] at hmem
          simpa using hmem
        have hid : datapointInstanceId dp = dim.value := by
          unfold datapointInstanceId
          cases hd : dp.dimensions with
          | nil => rw [hd] at hh; simp at hh
          | cons d tl =>
            rw [hd] at hh
            simp only [List.head?_cons, Option.some.injEq] at hh
            subst hh
            simp [List.find?, hname]
        rw [← hvals]
        simp only [List.map_cons, hid]
        exact congrArg (dim.value :: ·) (ih vs hr (fun d hd => hnames d (by simp [hd])))

/-! Claim theorems. -/

/-- C1: with the default thresholds 80/90/95, the per-datapoint
classification performed by `analyze_metrics` sends an average value v to
EMERGENCY iff v ≥ 95, to CRITICAL iff 90 ≤ v < 95, to WARNING iff
80 ≤ v < 90 (so a value exactly at a threshold triggers that level, e.g.
v = 80 gives WARNING), and produces no alert iff v < 80. -/
theorem analyze_default_threshold_classification (acc ts : String)
    (dims : List Dimension) (v : ℚ) :
    ((analyzeDatapoint default_config acc ⟨some v, ts, dims⟩).map Alert.alert_level
        = some AlertLevel.EMERGENCY ↔ 95 ≤ v) ∧
    ((analyzeDatapoint default_config acc ⟨some v, ts, dims⟩).map Alert.alert_level
        = some AlertLevel.CRITICAL ↔ 90 ≤ v ∧ v < 95) ∧
    ((analyzeDatapoint default_config acc ⟨some v, ts, dims⟩).map Alert.alert_level
        = some AlertLevel.WARNING ↔ 80 ≤ v ∧ v < 90) ∧
    (analyzeDatapoint default_config acc ⟨some v, ts, dims⟩ = none ↔ v < 80) := by
  simp only [analyzeDatapoint]
  norm_num [default_config]
  split_ifs with h1 h2 h3 <;> simp_all
  · exact ⟨fun _ => by linarith, by linarith⟩
  · linarith

/-- C7: the instance id attached to an alert that the analyzer loop body
produces for a datapoint is the value of the datapoint's `InstanceId`
dimension (the first dimension so named), defaulting to `"Unknown"` when
no such dimension exists. -/
theorem analyze_alert_instance_id (cfg : Config) (acc : String)
    (dp : Datapoint) (alert : Alert)
    (hdp : analyzeDatapoint cfg acc dp = some alert) :
    alert.instance_id =
      ((dp.dimensions.find? (fun dim => dim.name = "InstanceId")).map
          Dimension.value).getD "Unknown" := by
  simp only [analyzeDatapoint] at hdp
  split_ifs at hdp <;>
    (injection hdp with h; subst h; simp [datapointInstanceId])

/-- C7 witness: for a concrete EMERGENCY datapoint the produced alert
carries the value of its `InstanceId` dimension. -/
theorem analyze_alert_instance_id_witness :
    (⟨"111", "i-1", .EMERGENCY, "high", 96, "t", 95⟩ : Alert).instance_id =
      (((⟨some 96, "t", [⟨"InstanceId", "i-1"⟩]⟩ : Datapoint).dimensions.find?
          (fun dim => dim.name = "InstanceId")).map Dimension.value).getD
        "Unknown" :=
  analyze_alert_instance_id default_config "111"
    ⟨some 96, "t", [⟨"InstanceId", "i-1"⟩]⟩
    ⟨"111", "i-1", .EMERGENCY, "high", 96, "t", 95⟩ (by decide)

/-- C10: a datapoint without an `Average` field is treated as value 0,
so whenever all three configured thresholds are positive it produces no
alert. -/
theorem analyze_missing_average_no_alert (cfg : Config) (acc : String)
    (dp : Datapoint) (havg : dp.average = none)
    (hw : 0 < cfg.alert_threshold_warning)
    (hc : 0 < cfg.alert_threshold_critical)
    (he : 0 < cfg.alert_threshold_emergency) :
    analyzeDatapoint cfg acc dp = none := by
  have hw' : (0 : ℚ) < (cfg.alert_threshold_warning : ℚ) := by exact_mod_cast hw
  have hc' : (0 : ℚ) < (cfg.alert_threshold_critical : ℚ) := by exact_mod_cast hc
  have he' : (0 : ℚ) < (cfg.alert_threshold_emergency : ℚ) := by exact_mod_cast he
  simp only [analyzeDatapoint, havg, Option.getD_none]
  split_ifs with h1 h2 h3
  · exact absurd h1 (not_le.mpr he')
  · exact absurd h2 (not_le.mpr hc')
  · exact absurd h3 (not_le.mpr hw')
  · rfl

/-- C10 witness: with the default thresholds a datapoint missing its
`Average` field yields no alert. -/
theorem analyze_missing_average_no_alert_witness :
    analyzeDatapoint default_config "111" ⟨none, "t", []⟩ = none :=
  analyze_missing_average_no_alert default_config "111" ⟨none, "t", []⟩ rfl
    (by decide) (by decide) (by decide)

/-- C2 counterexample: with SNS and Slack both configured, Slack healthy
and formatting succeeding, an exception in the SNS publish makes
`send_alert` return `False` and Slack is never attempted — contradicting
the claim that a single channel's failure neither prevents the remaining
channels nor fails the overall send. -/
theorem send_alert_channel_failure_counterexample :
    cfg_sns_slack.slack_webhook_url.isSome = true ∧
    env_sns_raises.format_ok = true ∧
    env_sns_raises.slack_ok = true ∧
    (send_alert cfg_sns_slack env_sns_raises alert_critical).2 = false ∧
    Channel.Slack ∉ (send_alert cfg_sns_slack env_sns_raises alert_critical).1 := by
  decide

/-- C2 (amended): the single `try/except` wrapping all of `send_alert`
catches a channel failure, but then returns `False` and skips the
remaining channels: when formatting succeeded, SNS is configured and its
publish raises, the attempted-channel list is exactly `[SNS]` and the
result is `False`, whatever else is configured. -/
theorem send_alert_single_handler (cfg : Config) (env : ChannelEnv)
    (alert : Alert) (hf : env.format_ok = true)
    (hsns : cfg.sns_topic_arn.isSome = true) (hfail : env.sns_ok = false) :
    (send_alert cfg env alert).1 = [Channel.SNS] ∧
    (send_alert cfg env alert).2 = false := by
  simp [send_alert, hf, hsns, hfail]

/-- C2 witness: the amended behaviour at a concrete configuration. -/
theorem send_alert_single_handler_witness :
    (send_alert cfg_sns_slack env_sns_raises alert_critical).1 = [Channel.SNS] ∧
    (send_alert cfg_sns_slack env_sns_raises alert_critical).2 = false :=
  send_alert_single_handler cfg_sns_slack env_sns_raises alert_critical rfl rfl rfl

/-- C3 counterexample: a high-priority alert with the PagerDuty key
configured for which the PagerDuty send is nonetheless not attempted,
because the earlier SNS publish raised — contradicting the claimed
"if and only if". -/
theorem pagerduty_attempt_counterexample :
    cfg_sns_pagerduty.pagerduty_api_key.isSome = true ∧
    alert_critical.priority = "high" ∧
    Channel.PagerDuty ∉ (send_alert cfg_sns_pagerduty env_sns_raises alert_critical).1 := by
  decide

/-- C3 (amended): for an alert the analyzer produced with level WARNING,
the PagerDuty send is attempted exactly when its guard (key configured
and priority `"high"`) holds and neither formatting nor an earlier
configured channel raised — and since such an alert has priority
`"medium"`, PagerDuty is never attempted for it, regardless of
configuration and of the other channels' outcomes. -/
theorem pagerduty_never_for_warning (cfg : Config) (env : ChannelEnv)
    (cfg' : Config) (acc : String) (dp : Datapoint) (alert : Alert)
    (hdp : analyzeDatapoint cfg' acc dp = some alert)
    (hlevel : alert.alert_level = AlertLevel.WARNING) :
    ((send_alert cfg env alert).1.contains Channel.PagerDuty =
      (pagerdutyGate cfg alert && env.format_ok
        && (!cfg.sns_topic_arn.isSome || env.sns_ok)
        && (!cfg.slack_webhook_url.isSome || env.slack_ok))) ∧
    (send_alert cfg env alert).1.contains Channel.PagerDuty = false := by
  refine ⟨send_alert_pagerduty_contains cfg env alert, ?_⟩
  have hpri : alert.priority = "medium" :=
    analyzeDatapoint_warning_priority cfg' acc dp alert hdp hlevel
  have hgate : pagerdutyGate cfg alert = false := by
    simp [pagerdutyGate, hpri]
  rw [send_alert_pagerduty_contains, hgate]
  simp

/-- C3 witness: the WARNING alert produced for `dp_warning` never
reaches PagerDuty even with the key configured and all channels
healthy. -/
theorem pagerduty_never_for_warning_witness :
    ((send_alert cfg_sns_pagerduty env_all_ok alert_warning).1.contains
        Channel.PagerDuty =
      (pagerdutyGate cfg_sns_pagerduty alert_warning && env_all_ok.format_ok
        && (!cfg_sns_pagerduty.sns_topic_arn.isSome || env_all_ok.sns_ok)
        && (!cfg_sns_pagerduty.slack_webhook_url.isSome || env_all_ok.slack_ok))) ∧
    (send_alert cfg_sns_pagerduty env_all_ok alert_warning).1.contains
        Channel.PagerDuty = false :=
  pagerduty_never_for_warning cfg_sns_pagerduty env_all_ok default_config "111"
    dp_warning alert_warning (by decide) rfl

/-- C4: an account that is not the central one and whose `assume_role`
fails is skipped by `continue`: the loop state is unchanged (no
aggregated-data entry, no alerts), and the remaining accounts are
processed exactly as if the failing account were absent. -/
theorem assume_role_failure_skips_account (cfg : Config) (current : String)
    (envOf : String → AccountEnv) (now account_id : String) (st : RunState)
    (post : List String) (hne : account_id ≠ current)
    (hfail : (envOf account_id).assume_ok = false) :
    processAccount cfg current envOf now st account_id = st ∧
    List.foldl (processAccount cfg current envOf now) st (account_id :: post) =
      List.foldl (processAccount cfg current envOf now) st post := by
  have hs : hasSession current envOf account_id = false := by
    simp [hasSession, hfail, hne]
  have hp : processAccount cfg current envOf now st account_id = st := by
    simp [processAccount, hs]
  exact ⟨hp, by rw [List.foldl_cons, hp]⟩

/-- C4 witness: a denied account contributes nothing and the following
account is still processed. -/
theorem assume_role_failure_skips_account_witness :
    processAccount default_config "999" env_assume_denied "now" ⟨[], []⟩ "111" =
      (⟨[], []⟩ : RunState) ∧
    List.foldl (processAccount default_config "999" env_assume_denied "now")
        ⟨[], []⟩ ["111", "222"] =
      List.foldl (processAccount default_config "999" env_assume_denied "now")
        ⟨[], []⟩ ["222"] :=
  assume_role_failure_skips_account default_config "999" env_assume_denied
    "now" "111" ⟨[], []⟩ ["222"] (by decide) rfl

/-- C8: when an account's metric query raises, the collector returns the
record carrying the error string with empty metrics and zero count
instead of propagating, that record is stored, no alerts are added, and
the loop continues with the remaining accounts from that state. -/
theorem query_failure_error_record (cfg : Config) (current : String)
    (envOf : String → AccountEnv) (account_id e now : String) (st : RunState)
    (post : List String) (hresp : (envOf account_id).response = Except.error e)
    (hsess : hasSession current envOf account_id = true) :
    collect_metrics_from_account account_id (envOf account_id).response now =
      { account_id := account_id, timestamp := now, error := some e
        metrics := [], instance_count := 0 } ∧
    List.foldl (processAccount cfg current envOf now) st (account_id :: post) =
      List.foldl (processAccount cfg current envOf now)
        { aggregated_data := dictInsert st.aggregated_data account_id
            { account_id := account_id, timestamp := now, error := some e
              metrics := [], instance_count := 0 }
          alerts := st.alerts } post := by
  have h1 : collect_metrics_from_account account_id (envOf account_id).response
      now =
      { account_id := account_id, timestamp := now, error := some e
        metrics := [], instance_count := 0 } := by
    rw [hresp]
    rfl
  refine ⟨h1, ?_⟩
  rw [List.foldl_cons]
  congr 1
  simp [processAccount, hsess, h1, analyze_metrics]

/-- C8 witness: a concrete account whose query raises `AccessDenied`
yields the error record and the next account is still processed. -/
theorem query_failure_error_record_witness :
    collect_metrics_from_account "111" (env_query_denied "111").response "now" =
      { account_id := "111", timestamp := "now", error := some "AccessDenied"
        metrics := [], instance_count := 0 } ∧
    List.foldl (processAccount default_config "999" env_query_denied "now")
        ⟨[], []⟩ ["111", "222"] =
      List.foldl (processAccount default_config "999" env_query_denied "now")
        { aggregated_data := dictInsert [] "111"
            { account_id := "111", timestamp := "now"
              error := some "AccessDenied", metrics := [], instance_count := 0 }
          alerts := [] } ["222"] :=
  query_failure_error_record default_config "999" env_query_denied "111"
    "AccessDenied" "now" ⟨[], []⟩ ["222"] rfl (by decide)

/-- C5: for every configuration, account list and oracle outcome, the
summary returned by `run` reports `total_instances` equal to the sum of
the stored per-account `instance_count`s and `total_alerts` equal to the
length of the accumulated alert list. -/
theorem run_summary_totals (cfg : Config) (current : String)
    (envOf : String → AccountEnv) (now raw_accounts : String) :
    (run cfg current envOf now raw_accounts).1.total_instances =
      ((run cfg current envOf now raw_accounts).2.aggregated_data.map
        (fun p => p.2.instance_count)).sum ∧
    (run cfg current envOf now raw_accounts).1.total_alerts =
      (run cfg current envOf now raw_accounts).2.alerts.length :=
  ⟨rfl, rfl⟩

/-- C9: with an empty `MONITORED_ACCOUNTS` value the account list is
empty and `run` returns a summary with zero accounts monitored, zero
alerts and status `"success"`. -/
theorem run_empty_accounts (cfg : Config) (current : String)
    (envOf : String → AccountEnv) (now : String) :
    (run cfg current envOf now "").1.accounts_monitored = 0 ∧
    (run cfg current envOf now "").1.total_alerts = 0 ∧
    (run cfg current envOf now "").1.status = "success" :=
  ⟨rfl, rfl, rfl⟩

/-- C6 counterexample: two datapoints with `Filesystem` as first
dimension and distinct `InstanceId`s. The query succeeds (no error in the
record), yet `instance_count` is 1 — the number of distinct
first-dimension values — while the number of distinct instance
identifiers across the datapoints is 2. -/
theorem instance_count_counterexample :
    (collect_metrics_from_account "111"
        (Except.ok [dp_fs_first_1, dp_fs_first_2]) "now").error = none ∧
    (collect_metrics_from_account "111"
        (Except.ok [dp_fs_first_1, dp_fs_first_2]) "now").instance_count = 1 ∧
    ([dp_fs_first_1, dp_fs_first_2].map datapointInstanceId).dedup.length = 2 := by
  decide

/-- C6 (amended): `instance_count` counts the distinct first-dimension
values of the datapoints; when every datapoint's first dimension is the
`InstanceId` one, this equals the number of distinct instance
identifiers seen. -/
theorem instance_count_distinct_ids (account_id now : String)
    (dps : List Datapoint) (vals : List String)
    (hvals : firstDimensionValues dps = some vals)
    (hnames : ∀ dp ∈ dps,
      dp.dimensions.head?.map Dimension.name = some "InstanceId") :
    (collect_metrics_from_account account_id (Except.ok dps) now).error = none ∧
    (collect_metrics_from_account account_id (Except.ok dps) now).instance_count =
      (dps.map datapointInstanceId).dedup.length := by
  have hv : vals = dps.map datapointInstanceId :=
    firstDimensionValues_eq_map dps vals hvals hnames
  simp only [collect_metrics_from_account, hvals]
  exact ⟨trivial, by rw [hv]⟩

/-- C6 witness: a singleton datapoint list whose first dimension is the
`InstanceId` one. -/
theorem instance_count_distinct_ids_witness :
    (collect_metrics_from_account "111" (Except.ok [dp_id_first]) "now").error =
      none ∧
    (collect_metrics_from_account "111"
        (Except.ok [dp_id_first]) "now").instance_count =
      ([dp_id_first].map datapointInstanceId).dedup.length :=
  instance_count_distinct_ids "111" "now" [dp_id_first] ["i-1"] (by decide)
    (by decide)
